import Mathlib

/-!
Shallow embedding of the metric-computation engine of this repository
(`src/stock_sim_0921.py`) and of the volume-price-confirmation screen
(`src/vpc_sim.py`).

Modelling conventions:
* External data (price downloads, financial statements, the info summary) is
  an explicit input of each function.  A `none` at a call site models a
  provider error or raised exception that the source catches and converts to
  `np.nan`; a `none` field inside a snapshot models a missing line item.
* Exact rational arithmetic stands in for IEEE doubles; the one real-power
  operation of the growth-rate calculator is modelled with `Real.rpow`.
* `np.nan` results are modelled as `none`: an `Option` value is `some q`
  exactly when the source computes a non-nan number.
-/

namespace StockSim

/-- A daily price bar, as one row of a `yf.download` result: (date index, close). -/
abbrev Bar : Type := ℕ × ℚ

/-- One fiscal-period column of `stock.income_stmt` and `stock.balance_sheet`
(most recent first).  A `none` field models a line item that is absent, which
the source reads as `np.nan` via `.get(name, np.nan)` or an `in index` test. -/
structure Snapshot where
  operatingIncome : Option ℚ
  totalAssets : Option ℚ
  currentLiabilities : Option ℚ
  totalRevenue : Option ℚ
  costOfRevenue : Option ℚ
  totalDebt : Option ℚ
  stockholdersEquity : Option ℚ

/-- The fields of `stock.info` that the source reads. -/
structure Info where
  beta : Option ℚ
  grossMargins : Option ℚ
  operatingMargins : Option ℚ
  profitMargins : Option ℚ

/-- The market-data provider, seen from one ticker: price downloads per window
length in years (for the ticker and for the benchmark index `^GSPC`), the
fundamentals statements, and the info summary.  `none` models a failed call. -/
structure Provider where
  prices : ℕ → Option (List Bar)
  marketPrices : ℕ → Option (List Bar)
  fundamentals : Option (List Snapshot)
  info : Option Info

/-! ### Growth rate (`calculate_cagr`) -/

/-- Days of the requested window: `years * 365 + years // 4` in the source. -/
def elapsedDays (years : ℕ) : ℕ := years * 365 + years / 4

/-- The source computes `actual_years = (end_date - start_date).days / 365.25`,
and the two dates are the requested window boundaries, so the day count is
`elapsedDays years`. -/
def actualYears (years : ℕ) : ℚ := (elapsedDays years : ℚ) / (1461 / 4)

/-- Guard part of `calculate_cagr`: returns the (start, end) close pair when
the source reaches the power formula, `none` when the source returns `np.nan`:
download failed (exception caught), empty frame, no close at index 2
(`IndexError` caught), start price nonpositive, or nonpositive elapsed years. -/
def cagrCore : Option (List Bar) → ℕ → Option (ℚ × ℚ)
  | none, _ => none
  | some bars, years =>
    if bars.isEmpty then none
    else
      match (bars.map Prod.snd).get? 2, (bars.map Prod.snd).getLast? with
      | some startPrice, some endPrice =>
        if startPrice ≤ 0 ∨ actualYears years ≤ 0 then none
        else some (startPrice, endPrice)
      | _, _ => none

/-- The power formula of `calculate_cagr`:
`(end_price / start_price) ** (1 / actual_years) - 1`. -/
noncomputable def cagrValue (startPrice endPrice ay : ℚ) : ℝ :=
  ((endPrice / startPrice : ℚ) : ℝ) ^ (((1 / ay : ℚ) : ℝ)) - 1

/-- Model of `calculate_cagr(ticker, years)` with the downloaded close series
made an explicit argument. -/
noncomputable def calculate_cagr (data : Option (List Bar)) (years : ℕ) : Option ℝ :=
  (cagrCore data years).map fun p => cagrValue p.1 p.2 (actualYears years)

/-! ### Per-year fundamental ratios and windowed averages -/

/-- One year of ROCE: `ebit / (total_assets - current_liab)`.  The source
yields `np.nan` when any of the three items is missing (a nan input makes the
division nan even though `nan != 0` is true) or capital employed is zero. -/
def roceYear (s : Snapshot) : Option ℚ :=
  match s.operatingIncome, s.totalAssets, s.currentLiabilities with
  | some e, some ta, some cl => if ta - cl = 0 then none else some (e / (ta - cl))
  | _, _, _ => none

/-- One year of cost-of-revenue margin: `cogs / revenue`, `np.nan` when either
item is missing or revenue is zero. -/
def cogsMarginYear (s : Snapshot) : Option ℚ :=
  match s.costOfRevenue, s.totalRevenue with
  | some c, some r => if r = 0 then none else some (c / r)
  | _, _ => none

/-- One year of leverage: `total_debt / total_equity`, `np.nan` when either
item is missing or equity is zero. -/
def debtEquityYear (s : Snapshot) : Option ℚ :=
  match s.totalDebt, s.stockholdersEquity with
  | some d, some q => if q = 0 then none else some (d / q)
  | _, _ => none

/-- Mean as in `np.mean(valid) if valid else np.nan`, where `valid` keeps the
non-nan entries of the per-year list. -/
def meanOfAvailable (vals : List (Option ℚ)) : Option ℚ :=
  let valid := vals.filterMap id
  if valid.isEmpty then none else some (valid.sum / valid.length)

/-- Common shape of `calculate_avg_roce`, `calculate_avg_cogs_margin` and
`calculate_avg_debt_equity`: loop over
`range(min(years, number of statement columns))`, compute the per-year ratio,
then average the non-nan values.  `fund = none` models a raised provider call
(caught, `np.nan`); an empty statement returns `np.nan` before the loop. -/
def windowedAvg (f : Snapshot → Option ℚ) (fund : Option (List Snapshot))
    (years : ℕ) : Option ℚ :=
  match fund with
  | none => none
  | some snaps =>
    if snaps.isEmpty then none
    else meanOfAvailable ((List.range (min years snaps.length)).map
      fun y => (snaps.get? y).bind f)

/-- Model of `calculate_avg_roce(ticker, years)` over the fundamentals history. -/
def calculate_avg_roce : Option (List Snapshot) → ℕ → Option ℚ :=
  windowedAvg roceYear

/-- Model of `calculate_avg_cogs_margin(ticker, years)` over the fundamentals history. -/
def calculate_avg_cogs_margin : Option (List Snapshot) → ℕ → Option ℚ :=
  windowedAvg cogsMarginYear

/-- Model of `calculate_avg_debt_equity(ticker, years)` over the fundamentals history. -/
def calculate_avg_debt_equity : Option (List Snapshot) → ℕ → Option ℚ :=
  windowedAvg debtEquityYear

/-! ### Market sensitivity (`calculate_beta`) -/

/-- Daily returns as in `pct_change().dropna()`, keyed by the date of the later bar. -/
def pctChange (l : List Bar) : List Bar :=
  (l.zip l.tail).map fun pq => (pq.2.1, pq.2.2 / pq.1.2 - 1)

/-- Inner join as in `pd.concat([...], axis=1, join="inner")`: keep the stock-return dates that
also appear in the market series, pairing (stock return, market return). -/
def alignJoin (sr mr : List Bar) : List (ℚ × ℚ) :=
  sr.filterMap fun dr => (mr.lookup dr.1).map fun m => (dr.2, m)

/-- Slope of `stats.linregress(aligned["market"], aligned["stock"])`.
`none` when the market returns have zero variance, where scipy raises and the
source catches.  First component of a pair is the stock return (y), second the
market return (x). -/
def olsSlope (al : List (ℚ × ℚ)) : Option ℚ :=
  let n : ℚ := al.length
  let sx := (al.map fun p => p.2).sum
  let sy := (al.map fun p => p.1).sum
  let sxx := (al.map fun p => p.2 * p.2).sum
  let sxy := (al.map fun p => p.1 * p.2).sum
  if n * sxx - sx * sx = 0 then none
  else some ((n * sxy - sx * sy) / (n * sxx - sx * sx))

/-- Model of `calculate_beta(ticker, years)` with the two downloads made explicit. -/
def calculate_beta (stockData marketData : Option (List Bar)) : Option ℚ :=
  match stockData, marketData with
  | some sd, some md =>
    if sd.isEmpty ∨ md.isEmpty then none
    else
      let al := alignJoin (pctChange sd) (pctChange md)
      if al.length < 2 then none else olsSlope al
  | _, _ => none

/-! ### Composite blending and the per-ticker record -/

/-- The compound expression used for every metric kind:
`v5 * 0.2 + v3 * 0.3 + v1 * 0.5` when none of the three is nan, else nan. -/
def blend (α : Type) [Field α] : Option α → Option α → Option α → Option α
  | some v5, some v3, some v1 => some (v5 * (1 / 5) + v3 * (3 / 10) + v1 * (1 / 2))
  | _, _, _ => none

/-- The dictionary assembled by `fetch_stock_data`, with the column names of
the result table as fields. -/
structure StockRecord where
  CAGR_10Y : Option ℝ
  CAGR_5Y : Option ℝ
  CAGR_3Y : Option ℝ
  CAGR_1Y : Option ℝ
  CAGR_Compound : Option ℝ
  ROCE : Option ℚ
  ROCE_5Y : Option ℚ
  ROCE_3Y : Option ℚ
  ROCE_1Y : Option ℚ
  ROCE_Compound : Option ℚ
  Beta : Option ℚ
  Beta_5Y : Option ℚ
  Beta_3Y : Option ℚ
  Beta_1Y : Option ℚ
  Beta_Compound : Option ℚ
  Gross_Margin : Option ℚ
  Operating_Margin : Option ℚ
  Net_Margin : Option ℚ
  COGS_Margin_5Y : Option ℚ
  COGS_Margin_3Y : Option ℚ
  COGS_Margin_1Y : Option ℚ
  COGS_Margin_Compound : Option ℚ
  Debt_Equity : Option ℚ
  Debt_Equity_5Y : Option ℚ
  Debt_Equity_3Y : Option ℚ
  Debt_Equity_1Y : Option ℚ
  Debt_Equity_Compound : Option ℚ

/-- Model of `fetch_stock_data(ticker)` over the modelled provider.  The TTM ROCE and
TTM Debt/Equity blocks read column 0 of the statements inside try/except
(a missing statement or the NameError on `balance_sheet` is caught to nan);
the TTM margins come from the info summary, not from the statements. -/
noncomputable def fetch_stock_data (p : Provider) : StockRecord :=
  let cagr5 := calculate_cagr (p.prices 5) 5
  let cagr3 := calculate_cagr (p.prices 3) 3
  let cagr1 := calculate_cagr (p.prices 1) 1
  let roce5 := calculate_avg_roce p.fundamentals 5
  let roce3 := calculate_avg_roce p.fundamentals 3
  let roce1 := calculate_avg_roce p.fundamentals 1
  let beta5 := calculate_beta (p.prices 5) (p.marketPrices 5)
  let beta3 := calculate_beta (p.prices 3) (p.marketPrices 3)
  let beta1 := calculate_beta (p.prices 1) (p.marketPrices 1)
  let cogs5 := calculate_avg_cogs_margin p.fundamentals 5
  let cogs3 := calculate_avg_cogs_margin p.fundamentals 3
  let cogs1 := calculate_avg_cogs_margin p.fundamentals 1
  let de5 := calculate_avg_debt_equity p.fundamentals 5
  let de3 := calculate_avg_debt_equity p.fundamentals 3
  let de1 := calculate_avg_debt_equity p.fundamentals 1
  { CAGR_10Y := calculate_cagr (p.prices 10) 10
    CAGR_5Y := cagr5
    CAGR_3Y := cagr3
    CAGR_1Y := cagr1
    CAGR_Compound := blend ℝ cagr5 cagr3 cagr1
    ROCE := p.fundamentals.bind fun snaps => snaps.head?.bind roceYear
    ROCE_5Y := roce5
    ROCE_3Y := roce3
    ROCE_1Y := roce1
    ROCE_Compound := blend ℚ roce5 roce3 roce1
    Beta := p.info.bind Info.beta
    Beta_5Y := beta5
    Beta_3Y := beta3
    Beta_1Y := beta1
    Beta_Compound := blend ℚ beta5 beta3 beta1
    Gross_Margin := p.info.bind Info.grossMargins
    Operating_Margin := p.info.bind Info.operatingMargins
    Net_Margin := p.info.bind Info.profitMargins
    COGS_Margin_5Y := cogs5
    COGS_Margin_3Y := cogs3
    COGS_Margin_1Y := cogs1
    COGS_Margin_Compound := blend ℚ cogs5 cogs3 cogs1
    Debt_Equity := p.fundamentals.bind fun snaps => snaps.head?.bind debtEquityYear
    Debt_Equity_5Y := de5
    Debt_Equity_3Y := de3
    Debt_Equity_1Y := de1
    Debt_Equity_Compound := blend ℚ de5 de3 de1 }

/-- The per-ticker loop of `main`: every ticker is fetched and appended, in
input order, with no early exit. -/
noncomputable def processAll (ps : List (String × Provider)) :
    List (String × StockRecord) :=
  ps.map fun t => (t.1, fetch_stock_data t.2)

/-- A provider every call of which fails. -/
def failingProvider : Provider :=
  { prices := fun _ => none
    marketPrices := fun _ => none
    fundamentals := none
    info := none }

/-- Every field of the record is the unavailable marker. -/
def allUnavailable (r : StockRecord) : Prop :=
  r.CAGR_10Y = none ∧ r.CAGR_5Y = none ∧ r.CAGR_3Y = none ∧ r.CAGR_1Y = none ∧
  r.CAGR_Compound = none ∧ r.ROCE = none ∧ r.ROCE_5Y = none ∧ r.ROCE_3Y = none ∧
  r.ROCE_1Y = none ∧ r.ROCE_Compound = none ∧ r.Beta = none ∧ r.Beta_5Y = none ∧
  r.Beta_3Y = none ∧ r.Beta_1Y = none ∧ r.Beta_Compound = none ∧
  r.Gross_Margin = none ∧ r.Operating_Margin = none ∧ r.Net_Margin = none ∧
  r.COGS_Margin_5Y = none ∧ r.COGS_Margin_3Y = none ∧ r.COGS_Margin_1Y = none ∧
  r.COGS_Margin_Compound = none ∧ r.Debt_Equity = none ∧ r.Debt_Equity_5Y = none ∧
  r.Debt_Equity_3Y = none ∧ r.Debt_Equity_1Y = none ∧ r.Debt_Equity_Compound = none

end StockSim

namespace VpcSim

/-- One emitted row of `vpc_screen`. -/
structure VpcRow where
  Close : ℚ
  Volume : ℚ
  VPC : ℚ
  Breakout : Bool
  Breakdown : Bool

/-- The per-ticker body of `vpc_screen`: slice the last `window` rows
(`iloc[-window:]`, the whole frame when `window = 0`), take the latest close
and volume, the window high and low, the volume-price confirmation ratio, and
the breakout / breakdown flags.  Rows of `df` are (close, volume) pairs;
an empty frame is skipped (`continue`). -/
def vpcRow (df : List (ℚ × ℚ)) (window : ℕ) : Option VpcRow :=
  match df with
  | [] => none
  | r :: rs =>
    let sliced := if window = 0 then r :: rs
      else (r :: rs).drop ((r :: rs).length - window)
    match sliced with
    | [] => none
    | c :: cs =>
      let closes : List ℚ := c.1 :: cs.map Prod.fst
      let vols : List ℚ := c.2 :: cs.map Prod.snd
      let latest := closes.getLast (List.cons_ne_nil _ _)
      let latestVol := vols.getLast (List.cons_ne_nil _ _)
      let resistance := closes.foldl max c.1
      let support := closes.foldl min c.1
      let avgVolume := vols.sum / (window : ℚ)
      let latestVpc := latestVol / avgVolume
      some { Close := latest
             Volume := latestVol
             VPC := latestVpc
             Breakout := decide (resistance < latest ∧ (3 / 2 : ℚ) < latestVpc)
             Breakdown := decide (latest < support ∧ (3 / 2 : ℚ) < latestVpc) }

/-- Model of `vpc_screen(stocks)`: one downloaded frame per ticker (`none` models a
download that raised, skipped by the except branch; an empty frame is skipped
by the `continue`). -/
def vpc_screen (dfs : List (Option (List (ℚ × ℚ)))) (window : ℕ) : List VpcRow :=
  dfs.filterMap fun d => d.bind fun df => vpcRow df window

end VpcSim

/-! ## Theorems -/

namespace StockSim

/-- Blending is all-or-nothing, in any field. -/
theorem blend_eq_none_iff (α : Type) [Field α] (v5 v3 v1 : Option α) :
    blend α v5 v3 v1 = none ↔ v5 = none ∨ v3 = none ∨ v1 = none := by
  rcases v5 with _ | a <;> rcases v3 with _ | b <;> rcases v1 with _ | c <;>
    simp [blend]

/-- Blending of three available values, in the weight order of the claim. -/
theorem blend_some (α : Type) [Field α] (v5 v3 v1 : α) :
    blend α (some v5) (some v3) (some v1) =
      some ((1 / 2 : α) * v1 + (3 / 10 : α) * v3 + (1 / 5 : α) * v5) := by
  simp only [blend, Option.some.injEq]
  ring

/-- C1.  For every metric kind and every triple of 1Y/3Y/5Y window values, the
composite is unavailable iff at least one input is unavailable, and when all
three are available it equals `0.5*v1Y + 0.3*v3Y + 0.2*v5Y` exactly; the five
compound fields of the per-ticker record are exactly this blend of the
corresponding window fields, so mixed blending never occurs. -/
theorem claim_C1 :
    (∀ v5 v3 v1 : Option ℚ,
      (blend ℚ v5 v3 v1 = none ↔ v5 = none ∨ v3 = none ∨ v1 = none)) ∧
    (∀ v5 v3 v1 : ℚ, blend ℚ (some v5) (some v3) (some v1) =
      some ((1 / 2 : ℚ) * v1 + (3 / 10 : ℚ) * v3 + (1 / 5 : ℚ) * v5)) ∧
    (∀ v5 v3 v1 : Option ℝ,
      (blend ℝ v5 v3 v1 = none ↔ v5 = none ∨ v3 = none ∨ v1 = none)) ∧
    (∀ v5 v3 v1 : ℝ, blend ℝ (some v5) (some v3) (some v1) =
      some ((1 / 2 : ℝ) * v1 + (3 / 10 : ℝ) * v3 + (1 / 5 : ℝ) * v5)) ∧
    (∀ p : Provider,
      (fetch_stock_data p).CAGR_Compound =
        blend ℝ (fetch_stock_data p).CAGR_5Y (fetch_stock_data p).CAGR_3Y
          (fetch_stock_data p).CAGR_1Y ∧
      (fetch_stock_data p).ROCE_Compound =
        blend ℚ (fetch_stock_data p).ROCE_5Y (fetch_stock_data p).ROCE_3Y
          (fetch_stock_data p).ROCE_1Y ∧
      (fetch_stock_data p).COGS_Margin_Compound =
        blend ℚ (fetch_stock_data p).COGS_Margin_5Y (fetch_stock_data p).COGS_Margin_3Y
          (fetch_stock_data p).COGS_Margin_1Y ∧
      (fetch_stock_data p).Debt_Equity_Compound =
        blend ℚ (fetch_stock_data p).Debt_Equity_5Y (fetch_stock_data p).Debt_Equity_3Y
          (fetch_stock_data p).Debt_Equity_1Y ∧
      (fetch_stock_data p).Beta_Compound =
        blend ℚ (fetch_stock_data p).Beta_5Y (fetch_stock_data p).Beta_3Y
          (fetch_stock_data p).Beta_1Y) := by
  refine ⟨fun v5 v3 v1 => blend_eq_none_iff ℚ v5 v3 v1,
    fun v5 v3 v1 => blend_some ℚ v5 v3 v1,
    fun v5 v3 v1 => blend_eq_none_iff ℝ v5 v3 v1,
    fun v5 v3 v1 => blend_some ℝ v5 v3 v1,
    fun p => ⟨rfl, rfl, rfl, rfl, rfl⟩⟩

/-- The loop over `range(min(years, history length))` reading column `y`
visits exactly the `years` most recent snapshots, fewer if history is shorter. -/
theorem range_min_map_get_bind {α β : Type} (l : List α) (n : ℕ) (f : α → Option β) :
    (List.range (min n l.length)).map (fun y => (l.get? y).bind f) = (l.take n).map f := by
  induction l generalizing n with
  | nil => simp
  | cons a l ih =>
    cases n with
    | zero => simp
    | succ n =>
      simp only [List.length_cons, Nat.succ_min_succ, List.range_succ_eq_map,
        List.map_cons, List.map_map, List.take_succ_cons, List.get?_cons_zero,
        Option.some_bind, Function.comp, List.get?_cons_succ]
      exact congrArg _ (ih n)

/-- C4.  The windowed ROCE is the arithmetic mean of the available per-year
values `ebit / (total_assets - current_liabilities)` over the up-to-`years`
most recent fiscal periods; a year is unavailable when an input is missing or
capital employed is zero, unavailable years are excluded from the mean, and
the window is unavailable only if every year is; per-year values
(0.10, unavailable, 0.20) over a 3-year window average to 0.15. -/
theorem claim_C4 :
    (∀ s : Snapshot,
      ((s.operatingIncome = none ∨ s.totalAssets = none ∨ s.currentLiabilities = none) →
        roceYear s = none) ∧
      (∀ e ta cl, s.operatingIncome = some e → s.totalAssets = some ta →
        s.currentLiabilities = some cl →
        roceYear s = if ta - cl = 0 then none else some (e / (ta - cl)))) ∧
    (∀ (snaps : List Snapshot) (years : ℕ), snaps ≠ [] →
      calculate_avg_roce (some snaps) years =
        meanOfAvailable ((snaps.take years).map roceYear)) ∧
    (∀ vals : List (Option ℚ),
      (meanOfAvailable vals = none ↔ ∀ v ∈ vals, v = none) ∧
      (∀ l : List ℚ, vals.filterMap id = l → l ≠ [] →
        meanOfAvailable vals = some (l.sum / l.length))) ∧
    calculate_avg_roce
      (some [⟨some 10, some 110, some 10, none, none, none, none⟩,
             ⟨none, none, none, none, none, none, none⟩,
             ⟨some 30, some 200, some 50, none, none, none, none⟩]) 3 =
      some (15 / 100) := by
  have hwin : ∀ (snaps : List Snapshot) (years : ℕ), snaps ≠ [] →
      calculate_avg_roce (some snaps) years =
        meanOfAvailable ((snaps.take years).map roceYear) := by
    intro snaps years hne
    have hemp : snaps.isEmpty = false := by
      cases snaps with
      | nil => exact absurd rfl hne
      | cons a l => rfl
    simp only [calculate_avg_roce, windowedAvg, hemp, Bool.false_eq_true, if_false]
    rw [range_min_map_get_bind]
  refine ⟨fun s => ⟨?_, ?_⟩, hwin, fun vals => ⟨?_, ?_⟩, ?_⟩
  · obtain ⟨oi, ta, cl, tr, cr, td, se⟩ := s
    intro h
    rcases oi with _ | e <;> rcases ta with _ | t <;> rcases cl with _ | c <;>
      simp_all [roceYear]
  · obtain ⟨oi, ta, cl, tr, cr, td, se⟩ := s
    intro e t c h1 h2 h3
    simp only at h1 h2 h3
    subst h1; subst h2; subst h3
    rfl
  · simp [meanOfAvailable, List.isEmpty_iff, List.filterMap_eq_nil_iff]
  · intro l hl hlne
    have hemp : l.isEmpty = false := by
      cases l with
      | nil => exact absurd rfl hlne
      | cons a t => rfl
    simp only [meanOfAvailable, hl, hemp, Bool.false_eq_true, if_false]
  · rw [hwin _ 3 (by simp)]
    simp only [List.take_succ_cons, List.take_zero, List.map_cons, List.map_nil, roceYear]
    norm_num [meanOfAvailable, List.filterMap_cons]

/-- Witness for C4: the windowed-average characterization evaluated at a
concrete one-snapshot history. -/
theorem claim_C4_witness :
    calculate_avg_roce (some [⟨some 10, some 110, some 10, none, none, none, none⟩]) 5 =
      meanOfAvailable
        (([⟨some 10, some 110, some 10, none, none, none, none⟩] : List Snapshot).take 5
          |>.map roceYear) :=
  claim_C4.2.1 [⟨some 10, some 110, some 10, none, none, none, none⟩] 5 (by simp)

/-- C3.  The growth-rate calculator uses the close at index 2 as start price
and the latest close as end price, divides the elapsed day count of the
requested window by 365.25 to get `actual_years`, returns
`(end/start)^(1/actual_years) - 1`, and is unavailable on an empty series, a
nonpositive start price, or nonpositive elapsed years; for start 100, end 200
and exactly 3.0 elapsed years the value is `2^(1/3) - 1`. -/
theorem claim_C3 :
    (∀ years : ℕ, actualYears years =
      ((years * 365 + years / 4 : ℕ) : ℚ) / (365.25 : ℚ)) ∧
    (∀ years : ℕ, calculate_cagr (some ([] : List Bar)) years = none) ∧
    (∀ (bars : List Bar) (years : ℕ) (s : ℚ),
      (bars.map Prod.snd).get? 2 = some s → s ≤ 0 →
      calculate_cagr (some bars) years = none) ∧
    (∀ (bars : List Bar) (years : ℕ), actualYears years ≤ 0 →
      calculate_cagr (some bars) years = none) ∧
    (∀ (bars : List Bar) (years : ℕ) (s e : ℚ),
      (bars.map Prod.snd).get? 2 = some s →
      (bars.map Prod.snd).getLast? = some e →
      0 < s → 0 < actualYears years →
      calculate_cagr (some bars) years =
        some (((e : ℝ) / (s : ℝ)) ^ ((1 : ℝ) / ((actualYears years : ℚ) : ℝ)) - 1)) ∧
    cagrValue 100 200 3 = (2 : ℝ) ^ ((1 : ℝ) / 3) - 1 := by
  refine ⟨?_, ?_, ?_, ?_, ?_, ?_⟩
  · intro years
    norm_num [actualYears, elapsedDays]
  · intro years
    rfl
  · intro bars years s h1 hs
    have hne : bars ≠ [] := by
      intro h
      rw [h] at h1
      simp at h1
    have hemp : bars.isEmpty = false := by
      cases bars with
      | nil => exact absurd rfl hne
      | cons a l => rfl
    have h1' : Option.map Prod.snd bars[2]? = some s := by simpa using h1
    rcases hl : (bars.map Prod.snd).getLast? with _ | e
    · simp [calculate_cagr, cagrCore, hemp, h1', hl]
    · simp [calculate_cagr, cagrCore, hemp, h1', hl, hs]
  · intro bars years hy
    rcases hb : bars.isEmpty with _ | _
    · rcases h1 : (bars.map Prod.snd).get? 2 with _ | s <;>
        (have h1' := h1; simp only [List.get?_eq_getElem?, List.getElem?_map] at h1') <;>
        rcases hl : (bars.map Prod.snd).getLast? with _ | e <;>
        simp [calculate_cagr, cagrCore, hb, h1', hl, hy]
    · simp [calculate_cagr, cagrCore, hb]
  · intro bars years s e h1 h2 hs hy
    have hne : bars ≠ [] := by
      intro h
      rw [h] at h1
      simp at h1
    have hemp : bars.isEmpty = false := by
      cases bars with
      | nil => exact absurd rfl hne
      | cons a l => rfl
    have hs' : ¬ s ≤ 0 := not_le.mpr hs
    have hy' : ¬ actualYears years ≤ 0 := not_le.mpr hy
    have h1' : Option.map Prod.snd bars[2]? = some s := by simpa using h1
    have hval : cagrValue s e (actualYears years) =
        ((e : ℝ) / (s : ℝ)) ^ ((1 : ℝ) / ((actualYears years : ℚ) : ℝ)) - 1 := by
      unfold cagrValue
      push_cast
      rfl
    simp [calculate_cagr, cagrCore, hemp, h1', h2, hs', hy', hval]
  · norm_num [cagrValue]

/-- Witness for C3: the power formula evaluated on a four-bar series with
start close 100 (index 2) and latest close 200. -/
theorem claim_C3_witness :
    calculate_cagr (some [((0 : ℕ), (1 : ℚ)), (1, 2), (2, 100), (3, 200)]) 1 =
      some ((((200 : ℚ) : ℝ) / ((100 : ℚ) : ℝ)) ^
        ((1 : ℝ) / ((actualYears 1 : ℚ) : ℝ)) - 1) :=
  claim_C3.2.2.2.2.1 [((0 : ℕ), (1 : ℚ)), (1, 2), (2, 100), (3, 200)] 1 100 200
    rfl rfl (by norm_num) (by norm_num [actualYears, elapsedDays])

/-- C10.  A nonempty price series with fewer than three bars makes the growth
rate calculator return the unavailable marker: the read of the close at index
2 is converted to unavailability, never an error or a different start bar. -/
theorem claim_C10 (bars : List Bar) (years : ℕ) (hne : bars ≠ [])
    (hlen : bars.length < 3) : calculate_cagr (some bars) years = none := by
  cases bars with
  | nil => exact absurd rfl hne
  | cons b bs =>
    cases bs with
    | nil => rfl
    | cons b2 bs2 =>
      cases bs2 with
      | nil => rfl
      | cons b3 bs3 => simp [List.length_cons] at hlen; omega

/-- Witness for C10 at a one-bar series. -/
theorem claim_C10_witness : calculate_cagr (some [((0 : ℕ), (5 : ℚ))]) 1 = none :=
  claim_C10 [((0 : ℕ), (5 : ℚ))] 1 (by simp) (by simp)

/-- Expansion of a sum of products of mean deviations. -/
theorem sum_map_cross (al : List (ℚ × ℚ)) (a b : ℚ) :
    (al.map fun p => (p.2 - a) * (p.1 - b)).sum =
      (al.map fun p => p.1 * p.2).sum - a * (al.map fun p => p.1).sum -
        b * (al.map fun p => p.2).sum + (al.length : ℚ) * (a * b) := by
  induction al with
  | nil => simp
  | cons h t ih =>
    simp only [List.map_cons, List.sum_cons, List.length_cons, ih]
    push_cast
    ring

/-- Expansion of a sum of squared mean deviations. -/
theorem sum_map_sq (al : List (ℚ × ℚ)) (a : ℚ) :
    (al.map fun p => (p.2 - a) ^ 2).sum =
      (al.map fun p => p.2 * p.2).sum - 2 * a * (al.map fun p => p.2).sum +
        (al.length : ℚ) * a ^ 2 := by
  induction al with
  | nil => simp
  | cons h t ih =>
    simp only [List.map_cons, List.sum_cons, List.length_cons, ih]
    push_cast
    ring

/-- The computed regression slope equals the textbook least-squares slope
`sum((x - xbar)(y - ybar)) / sum((x - xbar)^2)` whenever the latter has a
nonzero denominator. -/
theorem olsSlope_eq (al : List (ℚ × ℚ)) (hn : (al.length : ℚ) ≠ 0)
    (hden : (al.map fun p => (p.2 - (al.map fun p => p.2).sum / al.length) ^ 2).sum ≠ 0) :
    olsSlope al = some
      ((al.map fun p => (p.2 - (al.map fun p => p.2).sum / al.length) *
          (p.1 - (al.map fun p => p.1).sum / al.length)).sum /
        (al.map fun p => (p.2 - (al.map fun p => p.2).sum / al.length) ^ 2).sum) := by
  have hdev2 : (al.map fun p => (p.2 - (al.map fun p => p.2).sum / al.length) ^ 2).sum =
      ((al.length : ℚ) * (al.map fun p => p.2 * p.2).sum -
        (al.map fun p => p.2).sum * (al.map fun p => p.2).sum) / al.length := by
    rw [sum_map_sq al ((al.map fun p => p.2).sum / al.length)]
    field_simp
    ring
  have hdevc : (al.map fun p => (p.2 - (al.map fun p => p.2).sum / al.length) *
        (p.1 - (al.map fun p => p.1).sum / al.length)).sum =
      ((al.length : ℚ) * (al.map fun p => p.1 * p.2).sum -
        (al.map fun p => p.2).sum * (al.map fun p => p.1).sum) / al.length := by
    rw [sum_map_cross al ((al.map fun p => p.2).sum / al.length)
      ((al.map fun p => p.1).sum / al.length)]
    field_simp
    ring
  have hden' : (al.length : ℚ) * (al.map fun p => p.2 * p.2).sum -
      (al.map fun p => p.2).sum * (al.map fun p => p.2).sum ≠ 0 := by
    intro h0
    apply hden
    rw [hdev2, h0, zero_div]
  simp only [olsSlope]
  rw [if_neg hden', hdevc, hdev2]
  congr 1
  rw [div_div_div_cancel_right₀]
  exact hn

/-- C6.  Beta: daily percentage returns of the security and the benchmark are
inner-joined by date; fewer than two aligned observations give the unavailable
marker, otherwise the value is the least-squares slope of stock returns on
market returns; on identical aligned series with returns 0.01, 0.02, -0.01
the slope is exactly 1. -/
theorem claim_C6 :
    (∀ sd md : List Bar,
      (alignJoin (pctChange sd) (pctChange md)).length < 2 →
      calculate_beta (some sd) (some md) = none) ∧
    (∀ (sd md : List Bar) (al : List (ℚ × ℚ)), sd ≠ [] → md ≠ [] →
      alignJoin (pctChange sd) (pctChange md) = al → 2 ≤ al.length →
      (al.map fun p => (p.2 - (al.map fun p => p.2).sum / al.length) ^ 2).sum ≠ 0 →
      calculate_beta (some sd) (some md) = some
        ((al.map fun p => (p.2 - (al.map fun p => p.2).sum / al.length) *
            (p.1 - (al.map fun p => p.1).sum / al.length)).sum /
          (al.map fun p => (p.2 - (al.map fun p => p.2).sum / al.length) ^ 2).sum)) ∧
    calculate_beta
      (some [((0 : ℕ), (100 : ℚ)), (1, 101), (2, 5151 / 50), (3, 509949 / 5000)])
      (some [((0 : ℕ), (100 : ℚ)), (1, 101), (2, 5151 / 50), (3, 509949 / 5000)]) =
      some 1 := by
  refine ⟨?_, ?_, ?_⟩
  · intro sd md h
    rcases hsd : sd.isEmpty with _ | _
    · rcases hmd : md.isEmpty with _ | _
      · have hcond : ¬(sd.isEmpty = true ∨ md.isEmpty = true) := by
          simp [hsd, hmd]
        simp only [calculate_beta]
        rw [if_neg hcond, if_pos h]
      · simp [calculate_beta, hmd]
    · simp [calculate_beta, hsd]
  · intro sd md al hsdne hmdne hal h2 hden
    have hsd : sd.isEmpty = false := by
      cases sd with
      | nil => exact absurd rfl hsdne
      | cons a l => rfl
    have hmd : md.isEmpty = false := by
      cases md with
      | nil => exact absurd rfl hmdne
      | cons a l => rfl
    have hcond : ¬(sd.isEmpty = true ∨ md.isEmpty = true) := by
      simp [hsd, hmd]
    have hn : (al.length : ℚ) ≠ 0 := by
      have : al.length ≠ 0 := by omega
      exact_mod_cast this
    simp only [calculate_beta, hal]
    rw [if_neg hcond, if_neg (not_lt.mpr h2)]
    exact olsSlope_eq al hn hden
  · have h21 : ((2 : ℕ) == 1) = false := rfl
    have h31 : ((3 : ℕ) == 1) = false := rfl
    have h32 : ((3 : ℕ) == 2) = false := rfl
    norm_num [calculate_beta, pctChange, alignJoin, olsSlope, List.lookup,
      List.filterMap_cons, List.filterMap_nil, h21, h31, h32]

/-- C5.  Failures are contained: the per-ticker loop maps every input to a
record independently (one record per input, in order), each metric depends
only on its own provider calls, and a ticker whose provider calls all fail
still yields a record with every field unavailable. -/
theorem claim_C5 :
    (∀ ps : List (String × Provider), (processAll ps).length = ps.length) ∧
    (∀ (ps : List (String × Provider)) (i : ℕ) (t : String) (p : Provider),
      ps.get? i = some (t, p) →
      (processAll ps).get? i = some (t, fetch_stock_data p)) ∧
    (∀ p q : Provider, p.fundamentals = q.fundamentals →
      (fetch_stock_data p).ROCE = (fetch_stock_data q).ROCE ∧
      (fetch_stock_data p).ROCE_5Y = (fetch_stock_data q).ROCE_5Y ∧
      (fetch_stock_data p).ROCE_3Y = (fetch_stock_data q).ROCE_3Y ∧
      (fetch_stock_data p).ROCE_1Y = (fetch_stock_data q).ROCE_1Y ∧
      (fetch_stock_data p).ROCE_Compound = (fetch_stock_data q).ROCE_Compound ∧
      (fetch_stock_data p).COGS_Margin_5Y = (fetch_stock_data q).COGS_Margin_5Y ∧
      (fetch_stock_data p).COGS_Margin_3Y = (fetch_stock_data q).COGS_Margin_3Y ∧
      (fetch_stock_data p).COGS_Margin_1Y = (fetch_stock_data q).COGS_Margin_1Y ∧
      (fetch_stock_data p).COGS_Margin_Compound = (fetch_stock_data q).COGS_Margin_Compound ∧
      (fetch_stock_data p).Debt_Equity = (fetch_stock_data q).Debt_Equity ∧
      (fetch_stock_data p).Debt_Equity_5Y = (fetch_stock_data q).Debt_Equity_5Y ∧
      (fetch_stock_data p).Debt_Equity_3Y = (fetch_stock_data q).Debt_Equity_3Y ∧
      (fetch_stock_data p).Debt_Equity_1Y = (fetch_stock_data q).Debt_Equity_1Y ∧
      (fetch_stock_data p).Debt_Equity_Compound = (fetch_stock_data q).Debt_Equity_Compound) ∧
    (∀ p q : Provider, p.prices = q.prices →
      (fetch_stock_data p).CAGR_10Y = (fetch_stock_data q).CAGR_10Y ∧
      (fetch_stock_data p).CAGR_5Y = (fetch_stock_data q).CAGR_5Y ∧
      (fetch_stock_data p).CAGR_3Y = (fetch_stock_data q).CAGR_3Y ∧
      (fetch_stock_data p).CAGR_1Y = (fetch_stock_data q).CAGR_1Y ∧
      (fetch_stock_data p).CAGR_Compound = (fetch_stock_data q).CAGR_Compound) ∧
    allUnavailable (fetch_stock_data failingProvider) := by
  refine ⟨?_, ?_, ?_, ?_, ?_⟩
  · intro ps
    simp [processAll]
  · intro ps i t p h
    simp [processAll, List.get?_eq_getElem?, List.getElem?_map,
      (List.get?_eq_getElem? ps i) ▸ h]
  · intro p q h
    refine ⟨?_, ?_, ?_, ?_, ?_, ?_, ?_, ?_, ?_, ?_, ?_, ?_, ?_, ?_⟩ <;>
      simp only [fetch_stock_data, h]
  · intro p q h
    refine ⟨?_, ?_, ?_, ?_, ?_⟩ <;> simp only [fetch_stock_data, h]
  · exact ⟨rfl, rfl, rfl, rfl, rfl, rfl, rfl, rfl, rfl, rfl, rfl, rfl, rfl, rfl,
      rfl, rfl, rfl, rfl, rfl, rfl, rfl, rfl, rfl, rfl, rfl, rfl, rfl⟩

/-- Witness for C5: a one-element ticker list whose provider fails every call
still yields its record at position 0. -/
theorem claim_C5_witness :
    (processAll [("A", failingProvider)]).get? 0 =
      some ("A", fetch_stock_data failingProvider) :=
  claim_C5.2.1 [("A", failingProvider)] 0 "A" failingProvider rfl

/-- Witness for C6: one-bar series yield no aligned returns, hence Beta is
unavailable. -/
theorem claim_C6_witness :
    calculate_beta (some [((0 : ℕ), (1 : ℚ))]) (some [((0 : ℕ), (1 : ℚ))]) = none :=
  claim_C6.1 [((0 : ℕ), (1 : ℚ))] [((0 : ℕ), (1 : ℚ))]
    (by norm_num [alignJoin, pctChange])

/-- A year-0 snapshot whose cost-of-revenue margin formula yields 1/2. -/
def s0C7 : Snapshot := ⟨none, none, none, some 100, some 50, none, none⟩

/-- A provider whose info summary margins differ from the year-0
cost-of-revenue margin of its fundamentals. -/
def c7Provider : Provider :=
  { prices := fun _ => none
    marketPrices := fun _ => none
    fundamentals := some [s0C7]
    info := some ⟨none, some (9 / 10), some (4 / 5), some (7 / 10)⟩ }

/-- C7 counterexample.  The year-0 snapshot has cost-of-revenue margin 1/2,
yet every TTM margin field of the record carries the info-summary value
instead: no TTM margin field is computed from the year-0 snapshot with the
per-year cost-of-revenue formula. -/
theorem claim_C7_counterexample :
    c7Provider.fundamentals = some [s0C7] ∧
    cogsMarginYear s0C7 = some (1 / 2) ∧
    (fetch_stock_data c7Provider).Gross_Margin = some (9 / 10) ∧
    (fetch_stock_data c7Provider).Operating_Margin = some (4 / 5) ∧
    (fetch_stock_data c7Provider).Net_Margin = some (7 / 10) ∧
    (9 / 10 : ℚ) ≠ 1 / 2 ∧ (4 / 5 : ℚ) ≠ 1 / 2 ∧ (7 / 10 : ℚ) ≠ 1 / 2 := by
  refine ⟨rfl, ?_, rfl, rfl, rfl, ?_, ?_, ?_⟩
  · norm_num [cogsMarginYear, s0C7]
  · norm_num
  · norm_num
  · norm_num

/-- C7 amended.  The TTM ROCE and TTM Debt/Equity are computed from only the
most recent fiscal snapshot with the same per-year formulas as the windowed
variants, while the TTM margin fields (gross, operating, net) are taken from
the provider info summary, not from the fundamentals. -/
theorem claim_C7_amended (p : Provider) (snaps : List Snapshot)
    (h : p.fundamentals = some snaps) :
    (fetch_stock_data p).ROCE = snaps.head?.bind roceYear ∧
    (fetch_stock_data p).Debt_Equity = snaps.head?.bind debtEquityYear ∧
    (fetch_stock_data p).Gross_Margin = p.info.bind Info.grossMargins ∧
    (fetch_stock_data p).Operating_Margin = p.info.bind Info.operatingMargins ∧
    (fetch_stock_data p).Net_Margin = p.info.bind Info.profitMargins := by
  refine ⟨?_, ?_, rfl, rfl, rfl⟩ <;> simp only [fetch_stock_data, h, Option.some_bind]

/-- Witness for the amended C7 at the concrete provider. -/
theorem claim_C7_witness :
    (fetch_stock_data c7Provider).ROCE = ([s0C7].head?.bind roceYear) ∧
    (fetch_stock_data c7Provider).Debt_Equity = ([s0C7].head?.bind debtEquityYear) ∧
    (fetch_stock_data c7Provider).Gross_Margin = c7Provider.info.bind Info.grossMargins ∧
    (fetch_stock_data c7Provider).Operating_Margin =
      c7Provider.info.bind Info.operatingMargins ∧
    (fetch_stock_data c7Provider).Net_Margin = c7Provider.info.bind Info.profitMargins :=
  claim_C7_amended c7Provider [s0C7] rfl

end StockSim

namespace VpcSim

/-- The seed of a max-fold is below the fold. -/
theorem foldl_max_init_le (l : List ℚ) (a : ℚ) : a ≤ l.foldl max a := by
  induction l generalizing a with
  | nil => simp
  | cons h t ih => exact le_trans (le_max_left a h) (ih (max a h))

/-- Every member of a list is below its max-fold. -/
theorem le_foldl_max : ∀ (l : List ℚ) (a x : ℚ), x ∈ l → x ≤ l.foldl max a
  | [], _, x, hx => absurd hx (List.not_mem_nil x)
  | h :: t, a, x, hx => by
    rcases List.mem_cons.mp hx with rfl | hx2
    · exact le_trans (le_max_right a x) (foldl_max_init_le t (max a x))
    · exact le_foldl_max t (max a h) x hx2

/-- The seed of a min-fold is above the fold. -/
theorem foldl_min_le_init (l : List ℚ) (a : ℚ) : l.foldl min a ≤ a := by
  induction l generalizing a with
  | nil => simp
  | cons h t ih => exact le_trans (ih (min a h)) (min_le_left a h)

/-- Every member of a list is above its min-fold. -/
theorem foldl_min_le : ∀ (l : List ℚ) (a x : ℚ), x ∈ l → l.foldl min a ≤ x
  | [], _, x, hx => absurd hx (List.not_mem_nil x)
  | h :: t, a, x, hx => by
    rcases List.mem_cons.mp hx with rfl | hx2
    · exact le_trans (foldl_min_le_init t (min a x)) (min_le_right a x)
    · exact foldl_min_le t (min a h) x hx2

/-- Any row the screen emits has both flags false: the latest close is a
member of the window whose max is the resistance and whose min is the
support. -/
theorem vpcRow_flags (df : List (ℚ × ℚ)) (w : ℕ) (row : VpcRow)
    (h : vpcRow df w = some row) :
    row.Breakout = false ∧ row.Breakdown = false := by
  cases df with
  | nil => simp [vpcRow] at h
  | cons r rs =>
    rcases hsl : (if w = 0 then r :: rs else (r :: rs).drop ((r :: rs).length - w))
      with _ | ⟨c, cs⟩ <;> simp only [vpcRow] at h <;> rw [hsl] at h
    · simp at h
    · rw [Option.some_inj] at h
      subst h
      constructor
      · rw [decide_eq_false_iff_not]
        rintro ⟨hlt, -⟩
        exact absurd hlt (not_lt.mpr (le_foldl_max _ c.1 _
          (List.getLast_mem (List.cons_ne_nil _ _))))
      · rw [decide_eq_false_iff_not]
        rintro ⟨hlt, -⟩
        exact absurd hlt (not_lt.mpr (foldl_min_le _ c.1 _
          (List.getLast_mem (List.cons_ne_nil _ _))))

/-- C9.  Every row emitted by the volume-price-confirmation screen, over any
input and window, has both the breakout and the breakdown flag false: the
resistance is the max and the support the min of the last `window` closes,
a window that contains the latest close itself. -/
theorem claim_C9 (dfs : List (Option (List (ℚ × ℚ)))) (window : ℕ)
    (row : VpcRow) (hmem : row ∈ vpc_screen dfs window) :
    row.Breakout = false ∧ row.Breakdown = false := by
  simp only [vpc_screen, List.mem_filterMap] at hmem
  obtain ⟨d, hd, hbind⟩ := hmem
  rcases d with _ | df
  · simp at hbind
  · exact vpcRow_flags df window row (by simpa using hbind)

/-- Witness for C9 at a single one-bar frame. -/
theorem claim_C9_witness :
    (⟨100, 10, 20, false, false⟩ : VpcRow).Breakout = false ∧
    (⟨100, 10, 20, false, false⟩ : VpcRow).Breakdown = false :=
  claim_C9 [some [((100 : ℚ), (10 : ℚ))]] 20 ⟨100, 10, 20, false, false⟩
    (by norm_num [vpc_screen, vpcRow, List.filterMap_cons])

end VpcSim
